import Mathlib

/-!
Shallow embedding of the temperature-ramp controller in
`PID_control_NOT-COMPLETE.py`.  Real (Python float) arithmetic is modelled
by exact rationals (ℚ).  The per-tick windowed statistics (30-second slope,
10-minute range, 10-minute slope) depend on wall-clock time and the sample
history, which the control state machine only observes; they are passed to
each tick as oracle inputs of type `Option ℚ` (`none` = the Python function
returned `None`).  The statistic `slope_over_window` itself is embedded as a
pure function of a history snapshot and the current time.
-/

namespace PIDControl

/-- The five controller states of `control_loop` (source lines 132-136). -/
inductive Phase
  | LINEAR
  | NONLINEAR
  | HOLD
  | COOL
  | DONE
deriving DecidableEq, Repr

/-- Configuration constant `START_TEMP = 45.0` (line 16). -/
def START_TEMP : ℚ := 45

/-- Configuration constant `MAX_TEMP = 100.0` (line 17). -/
def MAX_TEMP : ℚ := 100

/-- Configuration constant `MAX_RAMP = 10.0` (line 18). -/
def MAX_RAMP : ℚ := 10

/-- Configuration constant `FAST_RAMP = 2.0` (line 19). -/
def FAST_RAMP : ℚ := 2

/-- Configuration constant `COOL_RAMP = -1.0` (line 20). -/
def COOL_RAMP : ℚ := -1

/-- Configuration constant `CHECK_PERIOD_S = 30` (line 22). -/
def CHECK_PERIOD_S : ℚ := 30

/-- Configuration constant `EXPECTED_MAX_ABS = 1.0` (line 24). -/
def EXPECTED_MAX_ABS : ℚ := 1

/-- Configuration constant `SWITCH_TIME_HRS = 5.0` (line 25). -/
def SWITCH_TIME_HRS : ℚ := 5

/-- Reference slope `S_REF = EXPECTED_MAX_ABS / (SWITCH_TIME_HRS*60.0)` (line 26). -/
def S_REF : ℚ := EXPECTED_MAX_ABS / (SWITCH_TIME_HRS * 60)

/-- Configuration constant `STABILITY_WINDOW_MIN = 10` (line 30). -/
def STABILITY_WINDOW_MIN : ℚ := 10

/-- Configuration constant `STABILITY_MAX_RANGE_AU = 0.05` (line 31). -/
def STABILITY_MAX_RANGE_AU : ℚ := 5 / 100

/-- Configuration constant `STABILITY_MAX_SLOPE = 0.005` (line 32). -/
def STABILITY_MAX_SLOPE : ℚ := 5 / 1000

/-- Configuration constant `PLATEAU_TICKS = 3` (line 33). -/
def PLATEAU_TICKS : ℕ := 3

/-- PID proportional gain `Kp_pid = 80.0` (line 180). -/
def Kp_pid : ℚ := 80

/-- PID integral gain `Ki_pid = 10.0` (line 181). -/
def Ki_pid : ℚ := 10

/-- PID derivative gain `Kd_pid = 5.0` (line 182). -/
def Kd_pid : ℚ := 5

/-- Tick length in minutes, `dt_min = CHECK_PERIOD_S / 60.0` (line 177). -/
def dt_min : ℚ := CHECK_PERIOD_S / 60

/-- The statistics the loop body reads for one tick.  `slope30` models
`slope_over_window(history, SLOPE_WIN_SEC)` (line 156), `rng10` models
`range_over_window(history, STABILITY_WINDOW_MIN)` (line 216), `slope10`
models `slope_over_window(history, STABILITY_WINDOW_MIN*60)` (line 217);
`none` stands for Python `None`. -/
structure TickInput where
  slope30 : Option ℚ
  rng10 : Option ℚ
  slope10 : Option ℚ
deriving DecidableEq, Repr

/-- The mutable state of `control_loop` that survives from one tick to the
next: `state`, `temp`, `ramp`, `plateau_counter` (lines 138-142) and the
lazily-initialized PID locals `integral` / `prev_error` (lines 172-174),
modelled as `pid : Option (ℚ × ℚ)` with `none` = not yet bound in `locals()`.
`notes` is the per-tick notes string (line 157), overwritten every tick. -/
structure CState where
  state : Phase
  temp : ℚ
  ramp : ℚ
  plateau_counter : ℕ
  pid : Option (ℚ × ℚ)
  notes : String
deriving DecidableEq, Repr

/-- Initial state of `control_loop` (lines 138-142): `LINEAR`, `temp =
START_TEMP`, `ramp = FAST_RAMP`, counter 0, PID locals unbound. -/
def initState : CState :=
  { state := Phase.LINEAR, temp := START_TEMP, ramp := FAST_RAMP,
    plateau_counter := 0, pid := none, notes := "" }

/-- One iteration of the state logic of `control_loop` (lines 155-231),
from the computation of `s_meas = slope_over_window(...) or 0.0` through the
end of the `elif` chain.  Python `x or 0.0` agrees with `Option.getD _ 0`
here because a float `0.0` is falsy and is mapped to `0.0` again. -/
def tick (s : CState) (inp : TickInput) : CState :=
  let s_meas : ℚ := inp.slope30.getD 0
  match s.state with
  | Phase.LINEAR =>
      let ramp := FAST_RAMP
      let temp := s.temp + ramp * (CHECK_PERIOD_S / 60)
      if s_meas ≥ S_REF then
        let ramp2 : ℚ := 0
        let temp2 := temp - 2 * ramp2 * (CHECK_PERIOD_S / 60)
        { s with state := Phase.NONLINEAR, ramp := ramp2, temp := temp2,
                 notes := "→ proportional control" }
      else
        { s with ramp := ramp, temp := temp, notes := "" }
  | Phase.NONLINEAR =>
      let integral0 := (s.pid.getD (0, 0)).1
      let prev_error0 := (s.pid.getD (0, 0)).2
      let e := S_REF - s_meas
      let integral1 := integral0 + e * dt_min
      let derivative := (e - prev_error0) / dt_min
      let integral2 := max (min integral1 (1 / 100)) (-(1 / 100))
      let ramp1 := Kp_pid * e + Ki_pid * integral2 + Kd_pid * derivative
      let ramp2 := max (-10) (min MAX_RAMP ramp1)
      let temp1 := s.temp + ramp2 * dt_min
      let temp2 := max START_TEMP (min MAX_TEMP temp1)
      let pc := if (temp2 ≥ MAX_TEMP ∧ ramp2 > 0) ∨ (ramp2 ≥ MAX_RAMP ∧ e > 0)
                then s.plateau_counter + 1 else 0
      if pc ≥ PLATEAU_TICKS then
        { state := Phase.HOLD, temp := MAX_TEMP, ramp := 0,
          plateau_counter := pc, pid := some (integral2, e),
          notes := "Reached limit → HOLD" }
      else
        { state := Phase.NONLINEAR, temp := temp2, ramp := ramp2,
          plateau_counter := pc, pid := some (integral2, e), notes := "" }
  | Phase.HOLD =>
      let s10 : ℚ := inp.slope10.getD 0
      match inp.rng10 with
      | some rng =>
          if rng < STABILITY_MAX_RANGE_AU ∧ |s10| < STABILITY_MAX_SLOPE then
            { s with state := Phase.COOL, ramp := COOL_RAMP,
                     temp := START_TEMP, notes := "Stable → COOL" }
          else
            { s with ramp := 0, temp := MAX_TEMP, notes := "" }
      | none => { s with ramp := 0, temp := MAX_TEMP, notes := "" }
  | Phase.COOL =>
      let ramp := COOL_RAMP
      let temp := START_TEMP
      if temp ≤ START_TEMP then
        { s with state := Phase.DONE, temp := START_TEMP, ramp := 0,
                 notes := "Reached 20 °C → done." }
      else
        { s with state := Phase.COOL, ramp := ramp, temp := temp,
                 notes := "" }
  | Phase.DONE => { s with notes := "" }

/-- The `while True:` loop of `control_loop` (lines 146-243) over a list of
per-tick statistic inputs: a tick is processed only while the state is not
`DONE`; the loop `break`s once `state == STATE_DONE` (lines 242-243), so a
`DONE` state never executes another tick. -/
def run (s : CState) : List TickInput → CState
  | [] => s
  | inp :: rest => if s.state = Phase.DONE then s else run (tick s inp) rest

/-- The successor of each phase in the order `LINEAR → NONLINEAR → HOLD →
COOL → DONE` stated by the spec (`DONE` is terminal). -/
def nextPhase : Phase → Phase
  | Phase.LINEAR => Phase.NONLINEAR
  | Phase.NONLINEAR => Phase.HOLD
  | Phase.HOLD => Phase.COOL
  | Phase.COOL => Phase.DONE
  | Phase.DONE => Phase.DONE

/-- Position of a phase in the forward order, for monotonicity statements. -/
def phaseIdx : Phase → ℕ
  | Phase.LINEAR => 0
  | Phase.NONLINEAR => 1
  | Phase.HOLD => 2
  | Phase.COOL => 3
  | Phase.DONE => 4

/-- The PID feedback error `e = S_REF - s_meas` of a NONLINEAR tick
(line 176), with the `None → 0.0` substitution of line 156. -/
def nlError (inp : TickInput) : ℚ := S_REF - inp.slope30.getD 0

/-- The clamped PID integral a NONLINEAR tick leaves behind (lines 185, 189):
`integral + e*dt_min` clamped to `[-0.01, 0.01]`.  An unbound accumulator
(`pid = none`) reads as `0.0` (lines 172-174). -/
def nlIntegral (s : CState) (inp : TickInput) : ℚ :=
  max (min ((s.pid.getD (0, 0)).1 + nlError inp * dt_min) (1 / 100)) (-(1 / 100))

/-- The PID derivative `(e - prev_error) / dt_min` of a NONLINEAR tick
(line 186). -/
def nlDerivative (s : CState) (inp : TickInput) : ℚ :=
  (nlError inp - (s.pid.getD (0, 0)).2) / dt_min

/-- The clamped ramp a NONLINEAR tick computes (lines 192-193):
`Kp_pid*e + Ki_pid*integral + Kd_pid*derivative` clamped to
`[-10, MAX_RAMP]`. -/
def nlRamp (s : CState) (inp : TickInput) : ℚ :=
  max (-10) (min MAX_RAMP
    (Kp_pid * nlError inp + Ki_pid * nlIntegral s inp + Kd_pid * nlDerivative s inp))

/-- The clamped temperature target a NONLINEAR tick computes (lines 196-197):
`temp + ramp*dt_min` clamped to `[START_TEMP, MAX_TEMP]`. -/
def nlTemp (s : CState) (inp : TickInput) : ℚ :=
  max START_TEMP (min MAX_TEMP (s.temp + nlRamp s inp * dt_min))

/-- The plateau condition of line 203 phrased as in the spec: the computed
target is at `MAX_TEMP` with the computed ramp positive, or the computed
ramp is at `MAX_RAMP` with the feedback error positive.  (The source writes
`>=` in place of `=`; the two agree because both quantities are clamped.) -/
def plateauQual (s : CState) (inp : TickInput) : Prop :=
  (nlTemp s inp = MAX_TEMP ∧ nlRamp s inp > 0) ∨
  (nlRamp s inp = MAX_RAMP ∧ nlError inp > 0)

instance (s : CState) (inp : TickInput) : Decidable (plateauQual s inp) := by
  unfold plateauQual
  infer_instance

/-- Modelled from the spec (§4.3 and design notes): ControllerContext with
the PID accumulators as plain, always-present fields that are reset exactly
once, at the `LINEAR → NONLINEAR` transition.  The source instead keeps them
as function locals initialized lazily on the first NONLINEAR tick
(lines 172-174). -/
structure EState where
  state : Phase
  temp : ℚ
  ramp : ℚ
  plateau_counter : ℕ
  integral : ℚ
  prev_error : ℚ
  notes : String
deriving DecidableEq, Repr

/-- Modelled from the spec: the tick of the explicit-reset controller.  It is
the state logic of lines 155-231 except that the `LINEAR → NONLINEAR`
transition explicitly resets `integral := 0`, `prev_error := 0`, and the
NONLINEAR branch reads the accumulators as ordinary fields. -/
def tickE (s : EState) (inp : TickInput) : EState :=
  let s_meas : ℚ := inp.slope30.getD 0
  match s.state with
  | Phase.LINEAR =>
      let ramp := FAST_RAMP
      let temp := s.temp + ramp * (CHECK_PERIOD_S / 60)
      if s_meas ≥ S_REF then
        let ramp2 : ℚ := 0
        let temp2 := temp - 2 * ramp2 * (CHECK_PERIOD_S / 60)
        { s with state := Phase.NONLINEAR, ramp := ramp2, temp := temp2,
                 integral := 0, prev_error := 0,
                 notes := "→ proportional control" }
      else
        { s with ramp := ramp, temp := temp, notes := "" }
  | Phase.NONLINEAR =>
      let e := S_REF - s_meas
      let integral1 := s.integral + e * dt_min
      let derivative := (e - s.prev_error) / dt_min
      let integral2 := max (min integral1 (1 / 100)) (-(1 / 100))
      let ramp1 := Kp_pid * e + Ki_pid * integral2 + Kd_pid * derivative
      let ramp2 := max (-10) (min MAX_RAMP ramp1)
      let temp1 := s.temp + ramp2 * dt_min
      let temp2 := max START_TEMP (min MAX_TEMP temp1)
      let pc := if (temp2 ≥ MAX_TEMP ∧ ramp2 > 0) ∨ (ramp2 ≥ MAX_RAMP ∧ e > 0)
                then s.plateau_counter + 1 else 0
      if pc ≥ PLATEAU_TICKS then
        { state := Phase.HOLD, temp := MAX_TEMP, ramp := 0,
          plateau_counter := pc, integral := integral2, prev_error := e,
          notes := "Reached limit → HOLD" }
      else
        { state := Phase.NONLINEAR, temp := temp2, ramp := ramp2,
          plateau_counter := pc, integral := integral2, prev_error := e,
          notes := "" }
  | Phase.HOLD =>
      let s10 : ℚ := inp.slope10.getD 0
      match inp.rng10 with
      | some rng =>
          if rng < STABILITY_MAX_RANGE_AU ∧ |s10| < STABILITY_MAX_SLOPE then
            { s with state := Phase.COOL, ramp := COOL_RAMP,
                     temp := START_TEMP, notes := "Stable → COOL" }
          else
            { s with ramp := 0, temp := MAX_TEMP, notes := "" }
      | none => { s with ramp := 0, temp := MAX_TEMP, notes := "" }
  | Phase.COOL =>
      let ramp := COOL_RAMP
      let temp := START_TEMP
      if temp ≤ START_TEMP then
        { s with state := Phase.DONE, temp := START_TEMP, ramp := 0,
                 notes := "Reached 20 °C → done." }
      else
        { s with state := Phase.COOL, ramp := ramp, temp := temp,
                 notes := "" }
  | Phase.DONE => { s with notes := "" }

/-- Modelled from the spec: the loop over the explicit-reset controller. -/
def runE (s : EState) : List TickInput → EState
  | [] => s
  | inp :: rest => if s.state = Phase.DONE then s else runE (tickE s inp) rest

/-- View of the source controller state as an explicit-reset state: the PID
locals read as `0.0` while still unbound, exactly what the lazy
initialization of lines 172-174 makes the next NONLINEAR tick see. -/
def projE (s : CState) : EState :=
  { state := s.state, temp := s.temp, ramp := s.ramp,
    plateau_counter := s.plateau_counter,
    integral := (s.pid.getD (0, 0)).1, prev_error := (s.pid.getD (0, 0)).2,
    notes := s.notes }

/-- Sum of squared deviations from the mean, `den = sum((x-mx)**2 ...)` with
`mx = sum(xs)/n`, `n = len(xs)` (lines 112-115). -/
def olsDen (xs : List ℚ) : ℚ :=
  (xs.map fun x => (x - xs.sum / (xs.length : ℚ)) ^ 2).sum

/-- Cross term `num = sum((x-mx)*(y-my) ...)` with means over `n = len(xs)`
(lines 112-114). -/
def olsNum (xs ys : List ℚ) : ℚ :=
  ((xs.zip ys).map fun q =>
    (q.1 - xs.sum / (xs.length : ℚ)) * (q.2 - ys.sum / (xs.length : ℚ))).sum

/-- The in-window points `pts = [(t,a) for (t,a) in history if t >= cutoff]`
with `cutoff = now - window_sec` (lines 105-106; `time.time()` is passed
explicitly as `now`). -/
def windowPts (history : List (ℚ × ℚ)) (now window_sec : ℚ) : List (ℚ × ℚ) :=
  history.filter fun p => p.1 ≥ now - window_sec

/-- The regressor values `xs = [(t - t0)/60.0 ...]`, minutes elapsed since
the first in-window point `t0 = pts[0][0]` (lines 109-110). -/
def windowXs (history : List (ℚ × ℚ)) (now window_sec : ℚ) : List ℚ :=
  (windowPts history now window_sec).map fun p =>
    (p.1 - (windowPts history now window_sec).headI.1) / 60

/-- The regressand values `ys = [a for (_,a) in pts]` (line 111). -/
def windowYs (history : List (ℚ × ℚ)) (now window_sec : ℚ) : List ℚ :=
  (windowPts history now window_sec).map fun p => p.2

/-- `slope_over_window(history, window_sec)` (lines 104-116): `None` for
fewer than 6 in-window points, else the regression slope `num/den` of value
against elapsed minutes, `None` when the denominator vanishes. -/
def slope_over_window (history : List (ℚ × ℚ)) (now window_sec : ℚ) : Option ℚ :=
  if (windowPts history now window_sec).length < 6 then none
  else if olsDen (windowXs history now window_sec) ≠ 0 then
    some (olsNum (windowXs history now window_sec) (windowYs history now window_sec) /
      olsDen (windowXs history now window_sec))
  else none

/-- A tick on which every statistic is unavailable (Python `None`). -/
def iZero : TickInput := ⟨none, none, none⟩

/-- A tick whose measured 30-second slope is exactly `S_REF`. -/
def iSref : TickInput := ⟨some S_REF, none, none⟩

/-- A tick whose measured 30-second slope is `-1` (strongly negative, so the
PID output saturates at `MAX_RAMP`). -/
def iNeg : TickInput := ⟨some (-1), none, none⟩

/-- A NONLINEAR controller state as it stands right after the
`LINEAR → NONLINEAR` transition of `run initState [iSref]` (notes aside). -/
def nlStart : CState :=
  { state := Phase.NONLINEAR, temp := 46, ramp := 0, plateau_counter := 0,
    pid := none, notes := "" }

/-- A HOLD controller state as the NONLINEAR → HOLD transition leaves it. -/
def holdState : CState :=
  { state := Phase.HOLD, temp := MAX_TEMP, ramp := 0, plateau_counter := 3,
    pid := some (1 / 100, 301 / 300), notes := "" }

/-- A COOL controller state as the HOLD → COOL transition leaves it. -/
def coolState : CState :=
  { state := Phase.COOL, temp := START_TEMP, ramp := COOL_RAMP,
    plateau_counter := 3, pid := some (1 / 100, 301 / 300), notes := "" }

/-- A DONE controller state. -/
def doneState : CState :=
  { state := Phase.DONE, temp := START_TEMP, ramp := 0,
    plateau_counter := 3, pid := some (1 / 100, 301 / 300), notes := "" }

/-- A HOLD-phase tick whose 10-minute range (`0.04 AU`) and slope
(`0.003 AU/min`) are both within the stability gate. -/
def iGateIn : TickInput := ⟨none, some (4 / 100), some (3 / 1000)⟩

/-- A HOLD-phase tick whose 10-minute range (`0.06 AU`) is out of gate while
its slope (`0.003 AU/min`) qualifies. -/
def iGateOut : TickInput := ⟨none, some (6 / 100), some (3 / 1000)⟩

/-- A HOLD-phase tick with an in-gate range but an undefined 10-minute
slope. -/
def iRngOnly : TickInput := ⟨none, some (4 / 100), none⟩

/-- A six-sample history with evenly spaced timestamps `0..5` seconds and
values equal to the timestamp. -/
def demoHist6 : List (ℚ × ℚ) := [(0, 0), (1, 1), (2, 2), (3, 3), (4, 4), (5, 5)]

/-- A one-sample history. -/
def demoHist1 : List (ℚ × ℚ) := [(0, 1)]

/-!  Helper lemmas about the embedding. -/

lemma le_clamp_temp (x : ℚ) : START_TEMP ≤ max START_TEMP (min MAX_TEMP x) :=
  le_max_left _ _

lemma clamp_temp_le (x : ℚ) : max START_TEMP (min MAX_TEMP x) ≤ MAX_TEMP :=
  max_le (by norm_num [START_TEMP, MAX_TEMP]) (min_le_left _ _)

lemma clamp_ramp_le (x : ℚ) : max (-10) (min MAX_RAMP x) ≤ MAX_RAMP :=
  max_le (by norm_num [MAX_RAMP]) (min_le_left _ _)

lemma nlTemp_le (s : CState) (inp : TickInput) : nlTemp s inp ≤ MAX_TEMP :=
  clamp_temp_le _

lemma nlRamp_le (s : CState) (inp : TickInput) : nlRamp s inp ≤ MAX_RAMP :=
  clamp_ramp_le _

lemma code_qual_iff (s : CState) (inp : TickInput) :
    ((nlTemp s inp ≥ MAX_TEMP ∧ nlRamp s inp > 0) ∨
      (nlRamp s inp ≥ MAX_RAMP ∧ nlError inp > 0)) ↔ plateauQual s inp := by
  unfold plateauQual
  constructor
  · rintro (⟨h1, h2⟩ | ⟨h1, h2⟩)
    · exact Or.inl ⟨le_antisymm (nlTemp_le s inp) h1, h2⟩
    · exact Or.inr ⟨le_antisymm (nlRamp_le s inp) h1, h2⟩
  · rintro (⟨h1, h2⟩ | ⟨h1, h2⟩)
    · exact Or.inl ⟨ge_of_eq h1, h2⟩
    · exact Or.inr ⟨ge_of_eq h1, h2⟩

lemma nonlinear_tick_eq (s : CState) (inp : TickInput) (h : s.state = Phase.NONLINEAR) :
    tick s inp =
      if (nlTemp s inp ≥ MAX_TEMP ∧ nlRamp s inp > 0) ∨
          (nlRamp s inp ≥ MAX_RAMP ∧ nlError inp > 0) then
        (if s.plateau_counter + 1 ≥ PLATEAU_TICKS then
          { state := Phase.HOLD, temp := MAX_TEMP, ramp := 0,
            plateau_counter := s.plateau_counter + 1,
            pid := some (nlIntegral s inp, nlError inp),
            notes := "Reached limit → HOLD" }
        else
          { state := Phase.NONLINEAR, temp := nlTemp s inp, ramp := nlRamp s inp,
            plateau_counter := s.plateau_counter + 1,
            pid := some (nlIntegral s inp, nlError inp), notes := "" })
      else
        { state := Phase.NONLINEAR, temp := nlTemp s inp, ramp := nlRamp s inp,
          plateau_counter := 0,
          pid := some (nlIntegral s inp, nlError inp), notes := "" } := by
  by_cases hc : (nlTemp s inp ≥ MAX_TEMP ∧ nlRamp s inp > 0) ∨
      (nlRamp s inp ≥ MAX_RAMP ∧ nlError inp > 0)
  · rw [if_pos hc]
    by_cases hp : s.plateau_counter + 1 ≥ PLATEAU_TICKS
    · rw [if_pos hp]
      simp only [tick, h, nlTemp, nlRamp, nlIntegral, nlDerivative, nlError] at hc ⊢
      rw [if_pos hc, if_pos hp]
    · rw [if_neg hp]
      simp only [tick, h, nlTemp, nlRamp, nlIntegral, nlDerivative, nlError] at hc ⊢
      rw [if_pos hc, if_neg hp]
  · rw [if_neg hc]
    simp only [tick, h, nlTemp, nlRamp, nlIntegral, nlDerivative, nlError] at hc ⊢
    rw [if_neg hc, if_neg (show ¬ (0 ≥ PLATEAU_TICKS) by norm_num [PLATEAU_TICKS])]

lemma nonlinear_tick_counter (s : CState) (inp : TickInput)
    (h : s.state = Phase.NONLINEAR) :
    (tick s inp).plateau_counter =
      if plateauQual s inp then s.plateau_counter + 1 else 0 := by
  rw [nonlinear_tick_eq s inp h]
  by_cases hc : plateauQual s inp
  · rw [if_pos ((code_qual_iff s inp).mpr hc), if_pos hc]
    by_cases hp : s.plateau_counter + 1 ≥ PLATEAU_TICKS
    · rw [if_pos hp]
    · rw [if_neg hp]
  · rw [if_neg (fun hcc => hc ((code_qual_iff s inp).mp hcc)), if_neg hc]

lemma nonlinear_tick_qual (s : CState) (inp : TickInput)
    (h : s.state = Phase.NONLINEAR) (hq : plateauQual s inp) :
    (tick s inp).plateau_counter = s.plateau_counter + 1 ∧
    (s.plateau_counter + 1 ≥ PLATEAU_TICKS →
      (tick s inp).state = Phase.HOLD ∧ (tick s inp).ramp = 0 ∧
      (tick s inp).temp = MAX_TEMP) ∧
    (¬ s.plateau_counter + 1 ≥ PLATEAU_TICKS →
      (tick s inp).state = Phase.NONLINEAR) := by
  rw [nonlinear_tick_eq s inp h, if_pos ((code_qual_iff s inp).mpr hq)]
  by_cases hp : s.plateau_counter + 1 ≥ PLATEAU_TICKS
  · rw [if_pos hp]
    exact ⟨rfl, fun _ => ⟨rfl, rfl, rfl⟩, fun hn => absurd hp hn⟩
  · rw [if_neg hp]
    exact ⟨rfl, fun hy => absurd hy hp, fun _ => rfl⟩

lemma tick_state_step (s : CState) (inp : TickInput) :
    (tick s inp).state = s.state ∨ (tick s inp).state = nextPhase s.state := by
  rcases s with ⟨st, temp, ramp, pc, pid, nts⟩
  cases st
  case LINEAR => simp only [tick, nextPhase]; split_ifs <;> simp
  case NONLINEAR => simp only [tick, nextPhase]; split_ifs <;> simp
  case HOLD =>
    rcases hin : inp.rng10 with _ | r
    · simp [tick, nextPhase, hin]
    · simp only [tick, nextPhase, hin]
      split_ifs <;> simp
  case COOL => simp only [tick, nextPhase]; split_ifs <;> simp
  case DONE => simp only [tick, nextPhase]; simp

lemma run_done (s : CState) (is : List TickInput) (h : s.state = Phase.DONE) :
    run s is = s := by
  cases is with
  | nil => rfl
  | cons i t => simp [run, h]

lemma phaseIdx_nextPhase (p : Phase) : phaseIdx p ≤ phaseIdx (nextPhase p) := by
  cases p <;> simp [phaseIdx, nextPhase]

lemma phaseIdx_tick (s : CState) (inp : TickInput) :
    phaseIdx s.state ≤ phaseIdx (tick s inp).state := by
  rcases tick_state_step s inp with h | h
  · rw [h]
  · rw [h]; exact phaseIdx_nextPhase _

lemma phaseIdx_run (s : CState) (is : List TickInput) :
    phaseIdx s.state ≤ phaseIdx (run s is).state := by
  induction is generalizing s with
  | nil => exact le_rfl
  | cons i t ih =>
    by_cases h : s.state = Phase.DONE
    · simp [run, h]
    · simp only [run, if_neg h]
      exact le_trans (phaseIdx_tick s i) (ih (tick s i))

lemma linear_run_iZero (n : ℕ) : ∀ s : CState, s.state = Phase.LINEAR →
    (run s (List.replicate n iZero)).state = Phase.LINEAR ∧
    (run s (List.replicate n iZero)).temp = s.temp + n := by
  induction n with
  | zero => intro s hs; simpa [run] using hs
  | succ n ih =>
    intro s hs
    have hne : s.state ≠ Phase.DONE := by rw [hs]; simp
    have ht : tick s iZero =
        { s with ramp := FAST_RAMP,
                 temp := s.temp + FAST_RAMP * (CHECK_PERIOD_S / 60), notes := "" } := by
      simp only [tick, hs, iZero]
      rw [if_neg (by norm_num [S_REF, EXPECTED_MAX_ABS, SWITCH_TIME_HRS])]
    rw [List.replicate_succ]
    simp only [run, if_neg hne]
    obtain ⟨h1, h2⟩ := ih (tick s iZero) (by rw [ht]; exact hs)
    refine ⟨h1, ?_⟩
    rw [h2, ht]
    push_cast
    norm_num [FAST_RAMP, CHECK_PERIOD_S]
    ring

lemma tickE_sim (s : CState) (inp : TickInput)
    (hinv : s.state = Phase.LINEAR → s.pid = none) :
    projE (tick s inp) = tickE (projE s) inp ∧
    ((tick s inp).state = Phase.LINEAR → (tick s inp).pid = none) := by
  rcases s with ⟨st, temp, ramp, pc, pid, nts⟩
  cases st
  case LINEAR =>
    have hpid : pid = none := hinv rfl
    subst hpid
    constructor
    · simp only [tick, tickE, projE]
      split_ifs <;> rfl
    · intro _
      simp only [tick]
      split_ifs <;> rfl
  case NONLINEAR =>
    constructor
    · simp only [tick, tickE, projE]
      split_ifs <;> rfl
    · intro hL
      exfalso
      revert hL
      simp only [tick]
      split_ifs <;> simp
  case HOLD =>
    rcases hin : inp.rng10 with _ | r
    · constructor
      · simp only [tick, tickE, projE, hin]
      · intro hL
        exfalso
        revert hL
        simp only [tick, hin]
        simp
    · constructor
      · simp only [tick, tickE, projE, hin]
        split_ifs <;> rfl
      · intro hL
        exfalso
        revert hL
        simp only [tick, hin]
        split_ifs <;> simp
  case COOL =>
    constructor
    · simp only [tick, tickE, projE]
      split_ifs <;> rfl
    · intro hL
      exfalso
      revert hL
      simp only [tick]
      split_ifs <;> simp
  case DONE =>
    exact ⟨rfl, fun hL => by simp [tick] at hL⟩

lemma run_sim (is : List TickInput) : ∀ s : CState,
    (s.state = Phase.LINEAR → s.pid = none) →
    projE (run s is) = runE (projE s) is := by
  induction is with
  | nil => intro s _; rfl
  | cons i t ih =>
    intro s hinv
    by_cases hd : s.state = Phase.DONE
    · rw [run, runE, if_pos hd, if_pos (show (projE s).state = Phase.DONE from hd)]
    · rw [run, runE, if_neg hd, if_neg (show ¬ (projE s).state = Phase.DONE from hd)]
      obtain ⟨heq, hinv2⟩ := tickE_sim s i hinv
      rw [← heq]
      exact ih (tick s i) hinv2

lemma sum_sq_eq_zero_iff (l : List ℚ) (m : ℚ) :
    (l.map fun x => (x - m) ^ 2).sum = 0 ↔ ∀ x ∈ l, x = m := by
  induction l with
  | nil => simp
  | cons a t ih =>
    simp only [List.map_cons, List.sum_cons, List.mem_cons]
    have h1 : (0 : ℚ) ≤ (a - m) ^ 2 := sq_nonneg _
    have h2 : (0 : ℚ) ≤ (t.map fun x => (x - m) ^ 2).sum := by
      apply List.sum_nonneg
      intro x hx
      simp only [List.mem_map] at hx
      obtain ⟨y, _, rfl⟩ := hx
      exact sq_nonneg _
    rw [add_eq_zero_iff_of_nonneg h1 h2]
    rw [pow_eq_zero_iff (two_ne_zero), sub_eq_zero, ih]
    constructor
    · rintro ⟨ha, ht⟩ x hx
      rcases hx with rfl | hx
      · exact ha
      · exact ht x hx
    · intro hall
      exact ⟨hall a (Or.inl rfl), fun x hx => hall x (Or.inr hx)⟩

lemma olsDen_eq_zero_iff (xs : List ℚ) (h0 : (0 : ℚ) ∈ xs) :
    olsDen xs = 0 ↔ ∀ x ∈ xs, x = 0 := by
  unfold olsDen
  rw [sum_sq_eq_zero_iff]
  constructor
  · intro hall x hx
    have hm := hall 0 h0
    rw [hall x hx, ← hm]
  · intro hall x hx
    have hs : xs.sum = 0 := List.sum_eq_zero hall
    rw [hall x hx, hs, zero_div]

lemma windowXs_zero_mem (history : List (ℚ × ℚ)) (now window_sec : ℚ)
    (hne : windowPts history now window_sec ≠ []) :
    (0 : ℚ) ∈ windowXs history now window_sec := by
  obtain ⟨a, t, hcons⟩ := List.exists_cons_of_ne_nil hne
  unfold windowXs
  rw [hcons]
  simp only [List.headI, List.map_cons, List.mem_cons]
  left
  rw [sub_self, zero_div]

lemma olsDen_windowXs_zero_iff (history : List (ℚ × ℚ)) (now window_sec : ℚ)
    (hne : windowPts history now window_sec ≠ []) :
    olsDen (windowXs history now window_sec) = 0 ↔
      ∀ p ∈ windowPts history now window_sec,
        p.1 = (windowPts history now window_sec).headI.1 := by
  rw [olsDen_eq_zero_iff _ (windowXs_zero_mem history now window_sec hne)]
  unfold windowXs
  constructor
  · intro hall p hp
    have hz := hall _ (List.mem_map_of_mem _ hp)
    rcases div_eq_zero_iff.mp hz with hz2 | hz2
    · exact sub_eq_zero.mp hz2
    · norm_num at hz2
  · intro hall x hx
    simp only [List.mem_map] at hx
    obtain ⟨p, hp, rfl⟩ := hx
    rw [hall p hp, sub_self, zero_div]

/-!  Claim theorems. -/

/-- C1 (counterexample): the claimed invariant `temp_target ∈ [START_TEMP,
MAX_TEMP]` after every tick fails on the code: the LINEAR branch (lines
160-162) adds `FAST_RAMP * 0.5 = 1 °C` per tick without any clamp, so 56
ticks with slope feed 0 leave the controller still in LINEAR with
`temp_target = 101 > MAX_TEMP = 100`. -/
theorem temp_target_exceeds_max_in_linear :
    (run initState (List.replicate 56 iZero)).state = Phase.LINEAR ∧
    MAX_TEMP < (run initState (List.replicate 56 iZero)).temp := by
  obtain ⟨h1, h2⟩ := linear_run_iZero 56 initState rfl
  refine ⟨h1, ?_⟩
  rw [h2]
  norm_num [initState, START_TEMP, MAX_TEMP]

/-- C1 (amended): after any tick the temperature target never drops below
`START_TEMP` (given it started there), and any tick taken in the NONLINEAR,
HOLD or COOL phase leaves it inside `[START_TEMP, MAX_TEMP]`; only the
LINEAR phase can push it above `MAX_TEMP` (its update is unclamped). -/
theorem temp_target_bounds_by_phase (s : CState) (inp : TickInput) :
    (START_TEMP ≤ s.temp → START_TEMP ≤ (tick s inp).temp) ∧
    (s.state = Phase.NONLINEAR ∨ s.state = Phase.HOLD ∨ s.state = Phase.COOL →
      START_TEMP ≤ (tick s inp).temp ∧ (tick s inp).temp ≤ MAX_TEMP) := by
  rcases s with ⟨st, temp, ramp, pc, pid, nts⟩
  cases st
  case LINEAR =>
    constructor
    · intro hle
      simp only [tick]
      split_ifs <;>
        · simp only []
          norm_num [FAST_RAMP, CHECK_PERIOD_S]
          linarith
    · intro hor; simp at hor
  case NONLINEAR =>
    have hb : START_TEMP ≤ (tick ⟨Phase.NONLINEAR, temp, ramp, pc, pid, nts⟩ inp).temp ∧
        (tick ⟨Phase.NONLINEAR, temp, ramp, pc, pid, nts⟩ inp).temp ≤ MAX_TEMP := by
      simp only [tick]
      split_ifs <;>
        first
          | exact ⟨by norm_num [START_TEMP, MAX_TEMP], le_rfl⟩
          | exact ⟨le_clamp_temp _, clamp_temp_le _⟩
    exact ⟨fun _ => hb.1, fun _ => hb⟩
  case HOLD =>
    have hb : START_TEMP ≤ (tick ⟨Phase.HOLD, temp, ramp, pc, pid, nts⟩ inp).temp ∧
        (tick ⟨Phase.HOLD, temp, ramp, pc, pid, nts⟩ inp).temp ≤ MAX_TEMP := by
      rcases hin : inp.rng10 with _ | r
      · simp only [tick, hin]
        exact ⟨by norm_num [START_TEMP, MAX_TEMP], le_rfl⟩
      · simp only [tick, hin]
        split_ifs
        · exact ⟨le_rfl, by norm_num [START_TEMP, MAX_TEMP]⟩
        · exact ⟨by norm_num [START_TEMP, MAX_TEMP], le_rfl⟩
    exact ⟨fun _ => hb.1, fun _ => hb⟩
  case COOL =>
    have hb : START_TEMP ≤ (tick ⟨Phase.COOL, temp, ramp, pc, pid, nts⟩ inp).temp ∧
        (tick ⟨Phase.COOL, temp, ramp, pc, pid, nts⟩ inp).temp ≤ MAX_TEMP := by
      simp only [tick]
      rw [if_pos le_rfl]
      exact ⟨le_rfl, by norm_num [START_TEMP, MAX_TEMP]⟩
    exact ⟨fun _ => hb.1, fun _ => hb⟩
  case DONE =>
    constructor
    · intro hle; simpa [tick] using hle
    · intro hor; simp at hor

/-- C1 (witness): the amended bounds evaluated at a concrete LINEAR tick and
a concrete HOLD tick. -/
theorem temp_target_bounds_by_phase_witness :
    START_TEMP ≤ (tick initState iZero).temp ∧
    (START_TEMP ≤ (tick holdState iZero).temp ∧
      (tick holdState iZero).temp ≤ MAX_TEMP) :=
  ⟨(temp_target_bounds_by_phase initState iZero).1 (by norm_num [initState]),
   (temp_target_bounds_by_phase holdState iZero).2 (Or.inr (Or.inl rfl))⟩

/-- C2: every tick either keeps the phase or moves it to the immediately
next phase of `LINEAR → NONLINEAR → HOLD → COOL → DONE`; a `DONE` state
processes no further tick (the loop breaks, lines 242-243); and the phase
index never decreases along any run. -/
theorem phase_strictly_forward (s : CState) (inp : TickInput)
    (is : List TickInput) :
    ((tick s inp).state = s.state ∨ (tick s inp).state = nextPhase s.state) ∧
    (s.state = Phase.DONE → run s is = s) ∧
    phaseIdx s.state ≤ phaseIdx (run s is).state :=
  ⟨tick_state_step s inp, run_done s is, phaseIdx_run s is⟩

/-- C2 (witness): the forward-only property evaluated at a `DONE` state and
at the initial state. -/
theorem phase_strictly_forward_witness :
    run doneState [iZero] = doneState ∧
    ((tick initState iZero).state = initState.state ∨
      (tick initState iZero).state = nextPhase initState.state) :=
  ⟨(phase_strictly_forward doneState iZero [iZero]).2.1 rfl,
   (phase_strictly_forward initState iZero [iZero]).1⟩

/-- C3 (counterexample): on the NONLINEAR tick that transitions to HOLD the
final temperature target is not the claimed clamped value
`temp + ramp*dt_minutes`: after `run initState [iSref, iNeg, iNeg]` the
controller is in NONLINEAR with `temp = 56` and plateau counter 2; one more
`iNeg` tick yields `temp = 100` (the transition overwrite of line 210)
while the claimed update gives `nlTemp = 61`. -/
theorem nonlinear_pid_update_hold_override :
    (run initState [iSref, iNeg, iNeg]).state = Phase.NONLINEAR ∧
    (tick (run initState [iSref, iNeg, iNeg]) iNeg).temp = 100 ∧
    nlTemp (run initState [iSref, iNeg, iNeg]) iNeg = 61 ∧
    (tick (run initState [iSref, iNeg, iNeg]) iNeg).temp ≠
      nlTemp (run initState [iSref, iNeg, iNeg]) iNeg := by
  have h1 : tick initState iSref =
      { state := Phase.NONLINEAR, temp := 46, ramp := 0, plateau_counter := 0,
        pid := none, notes := "→ proportional control" } := by
    norm_num [tick, initState, iSref, S_REF, EXPECTED_MAX_ABS, SWITCH_TIME_HRS,
      FAST_RAMP, CHECK_PERIOD_S, START_TEMP]
  have h2 : tick
      { state := Phase.NONLINEAR, temp := 46, ramp := 0, plateau_counter := 0,
        pid := none, notes := "→ proportional control" } iNeg =
      { state := Phase.NONLINEAR, temp := 51, ramp := 10, plateau_counter := 1,
        pid := some (1 / 100, 301 / 300), notes := "" } := by
    norm_num [tick, iNeg, S_REF, EXPECTED_MAX_ABS, SWITCH_TIME_HRS,
      Kp_pid, Ki_pid, Kd_pid, dt_min, CHECK_PERIOD_S, START_TEMP, MAX_TEMP,
      MAX_RAMP, PLATEAU_TICKS, min_def, max_def]
  have h3 : tick
      { state := Phase.NONLINEAR, temp := 51, ramp := 10, plateau_counter := 1,
        pid := some (1 / 100, 301 / 300), notes := "" } iNeg =
      { state := Phase.NONLINEAR, temp := 56, ramp := 10, plateau_counter := 2,
        pid := some (1 / 100, 301 / 300), notes := "" } := by
    norm_num [tick, iNeg, S_REF, EXPECTED_MAX_ABS, SWITCH_TIME_HRS,
      Kp_pid, Ki_pid, Kd_pid, dt_min, CHECK_PERIOD_S, START_TEMP, MAX_TEMP,
      MAX_RAMP, PLATEAU_TICKS, min_def, max_def]
  have hrun : run initState [iSref, iNeg, iNeg] =
      { state := Phase.NONLINEAR, temp := 56, ramp := 10, plateau_counter := 2,
        pid := some (1 / 100, 301 / 300), notes := "" } := by
    show run initState (iSref :: iNeg :: iNeg :: []) = _
    rw [run, if_neg (by simp [initState])]
    rw [h1, run, if_neg (by simp)]
    rw [h2, run, if_neg (by simp)]
    rw [h3, run]
  rw [hrun]
  have ht : (tick
      { state := Phase.NONLINEAR, temp := 56, ramp := 10, plateau_counter := 2,
        pid := some (1 / 100, 301 / 300), notes := "" } iNeg).temp = 100 := by
    norm_num [tick, iNeg, S_REF, EXPECTED_MAX_ABS, SWITCH_TIME_HRS,
      Kp_pid, Ki_pid, Kd_pid, dt_min, CHECK_PERIOD_S, START_TEMP, MAX_TEMP,
      MAX_RAMP, PLATEAU_TICKS, min_def, max_def]
  have hn : nlTemp
      { state := Phase.NONLINEAR, temp := 56, ramp := 10, plateau_counter := 2,
        pid := some (1 / 100, 301 / 300), notes := "" } iNeg = 61 := by
    norm_num [nlTemp, nlRamp, nlError, nlIntegral, nlDerivative, iNeg,
      S_REF, EXPECTED_MAX_ABS, SWITCH_TIME_HRS,
      Kp_pid, Ki_pid, Kd_pid, dt_min, CHECK_PERIOD_S, START_TEMP, MAX_TEMP,
      MAX_RAMP, min_def, max_def]
  refine ⟨rfl, ht, hn, ?_⟩
  rw [ht, hn]
  norm_num

/-- C3 (amended): on every NONLINEAR tick the controller computes
`error = S_REF - s` (`nlError`), updates and clamps the integral
(`nlIntegral`), computes the derivative and the `[-10, MAX_RAMP]`-clamped
ramp (`nlRamp`) and the `[START_TEMP, MAX_TEMP]`-clamped target (`nlTemp`),
and stores `previous_error := error`; the computed ramp and target are the
final values of the tick on every tick except the one transitioning to HOLD,
where the transition overwrites them with `0` and `MAX_TEMP`. -/
theorem nonlinear_pid_update (s : CState) (inp : TickInput)
    (h : s.state = Phase.NONLINEAR) :
    (tick s inp).pid = some (nlIntegral s inp, nlError inp) ∧
    ((tick s inp).state = Phase.NONLINEAR →
      (tick s inp).ramp = nlRamp s inp ∧ (tick s inp).temp = nlTemp s inp) ∧
    ((tick s inp).state = Phase.HOLD →
      (tick s inp).ramp = 0 ∧ (tick s inp).temp = MAX_TEMP) := by
  rw [nonlinear_tick_eq s inp h]
  split_ifs
  · exact ⟨rfl, fun hh => absurd hh (by simp), fun _ => ⟨rfl, rfl⟩⟩
  · exact ⟨rfl, fun _ => ⟨rfl, rfl⟩, fun hh => absurd hh (by simp)⟩
  · exact ⟨rfl, fun _ => ⟨rfl, rfl⟩, fun hh => absurd hh (by simp)⟩

/-- C3 (witness): the PID update evaluated at a concrete NONLINEAR state. -/
theorem nonlinear_pid_update_witness :
    (tick nlStart iZero).pid = some (nlIntegral nlStart iZero, nlError iZero) :=
  (nonlinear_pid_update nlStart iZero rfl).1

/-- C4: on a NONLINEAR tick the plateau counter is incremented exactly when
the computed target is at `MAX_TEMP` with positive computed ramp, or the
computed ramp is at `MAX_RAMP` with positive feedback error (`plateauQual`),
and reset to 0 otherwise; starting from counter 0, three consecutive
qualifying ticks stay in NONLINEAR on the 1st and 2nd and transition to
HOLD with `ramp = 0`, `temp_target = MAX_TEMP` on the 3rd. -/
theorem plateau_detection (s : CState) (inp1 inp2 inp3 : TickInput)
    (h : s.state = Phase.NONLINEAR) :
    ((tick s inp1).plateau_counter =
      if plateauQual s inp1 then s.plateau_counter + 1 else 0) ∧
    (s.plateau_counter = 0 →
      plateauQual s inp1 →
      plateauQual (tick s inp1) inp2 →
      plateauQual (tick (tick s inp1) inp2) inp3 →
      (tick s inp1).state = Phase.NONLINEAR ∧
      (tick (tick s inp1) inp2).state = Phase.NONLINEAR ∧
      (tick (tick (tick s inp1) inp2) inp3).state = Phase.HOLD ∧
      (tick (tick (tick s inp1) inp2) inp3).ramp = 0 ∧
      (tick (tick (tick s inp1) inp2) inp3).temp = MAX_TEMP) := by
  refine ⟨nonlinear_tick_counter s inp1 h, ?_⟩
  intro h0 hq1 hq2 hq3
  obtain ⟨hc1, _, hs1⟩ := nonlinear_tick_qual s inp1 h hq1
  have hst1 : (tick s inp1).state = Phase.NONLINEAR :=
    hs1 (by rw [h0]; norm_num [PLATEAU_TICKS])
  obtain ⟨hc2, _, hs2⟩ := nonlinear_tick_qual (tick s inp1) inp2 hst1 hq2
  have hst2 : (tick (tick s inp1) inp2).state = Phase.NONLINEAR :=
    hs2 (by rw [hc1, h0]; norm_num [PLATEAU_TICKS])
  obtain ⟨hc3, hs3, _⟩ := nonlinear_tick_qual (tick (tick s inp1) inp2) inp3 hst2 hq3
  have hp3 : (tick (tick s inp1) inp2).plateau_counter + 1 ≥ PLATEAU_TICKS := by
    rw [hc2, hc1, h0]; norm_num [PLATEAU_TICKS]
  exact ⟨hst1, hst2, hs3 hp3⟩

/-- C4 (witness): from a concrete NONLINEAR state with counter 0, three
strongly negative slope readings pin the ramp at `MAX_RAMP` and trigger the
HOLD transition on the 3rd tick and not the 2nd. -/
theorem plateau_detection_witness :
    (tick (tick nlStart iNeg) iNeg).state = Phase.NONLINEAR ∧
    (tick (tick (tick nlStart iNeg) iNeg) iNeg).state = Phase.HOLD ∧
    (tick (tick (tick nlStart iNeg) iNeg) iNeg).temp = MAX_TEMP := by
  have e1 : tick nlStart iNeg =
      { state := Phase.NONLINEAR, temp := 51, ramp := 10, plateau_counter := 1,
        pid := some (1 / 100, 301 / 300), notes := "" } := by
    norm_num [tick, nlStart, iNeg, S_REF, EXPECTED_MAX_ABS, SWITCH_TIME_HRS,
      Kp_pid, Ki_pid, Kd_pid, dt_min, CHECK_PERIOD_S, START_TEMP, MAX_TEMP,
      MAX_RAMP, PLATEAU_TICKS, min_def, max_def]
  have e2 : tick
      { state := Phase.NONLINEAR, temp := 51, ramp := 10, plateau_counter := 1,
        pid := some (1 / 100, 301 / 300), notes := "" } iNeg =
      { state := Phase.NONLINEAR, temp := 56, ramp := 10, plateau_counter := 2,
        pid := some (1 / 100, 301 / 300), notes := "" } := by
    norm_num [tick, iNeg, S_REF, EXPECTED_MAX_ABS, SWITCH_TIME_HRS,
      Kp_pid, Ki_pid, Kd_pid, dt_min, CHECK_PERIOD_S, START_TEMP, MAX_TEMP,
      MAX_RAMP, PLATEAU_TICKS, min_def, max_def]
  have hq1 : plateauQual nlStart iNeg := by
    norm_num [plateauQual, nlTemp, nlRamp, nlError, nlIntegral, nlDerivative,
      nlStart, iNeg, S_REF, EXPECTED_MAX_ABS, SWITCH_TIME_HRS,
      Kp_pid, Ki_pid, Kd_pid, dt_min, CHECK_PERIOD_S, START_TEMP, MAX_TEMP,
      MAX_RAMP, min_def, max_def]
  have hq2 : plateauQual (tick nlStart iNeg) iNeg := by
    rw [e1]
    norm_num [plateauQual, nlTemp, nlRamp, nlError, nlIntegral, nlDerivative,
      iNeg, S_REF, EXPECTED_MAX_ABS, SWITCH_TIME_HRS,
      Kp_pid, Ki_pid, Kd_pid, dt_min, CHECK_PERIOD_S, START_TEMP, MAX_TEMP,
      MAX_RAMP, min_def, max_def]
  have hq3 : plateauQual (tick (tick nlStart iNeg) iNeg) iNeg := by
    rw [e1, e2]
    norm_num [plateauQual, nlTemp, nlRamp, nlError, nlIntegral, nlDerivative,
      iNeg, S_REF, EXPECTED_MAX_ABS, SWITCH_TIME_HRS,
      Kp_pid, Ki_pid, Kd_pid, dt_min, CHECK_PERIOD_S, START_TEMP, MAX_TEMP,
      MAX_RAMP, min_def, max_def]
  obtain ⟨_, hst2, hst3, _, htemp⟩ :=
    (plateau_detection nlStart iNeg iNeg iNeg rfl).2 rfl hq1 hq2 hq3
  exact ⟨hst2, hst3, htemp⟩

/-- C5: on a HOLD tick the transition to COOL fires exactly when the
10-minute range is defined and below `0.05 AU` and the (0-substituted)
10-minute slope is below `0.005 AU/min` in absolute value; a transitioning
tick sets `ramp = COOL_RAMP` and `temp_target = START_TEMP`, any other HOLD
tick pins `ramp = 0` and `temp_target = MAX_TEMP`. -/
theorem hold_stability_gate (s : CState) (inp : TickInput)
    (h : s.state = Phase.HOLD) :
    ((tick s inp).state = Phase.COOL ↔
      (∃ r, inp.rng10 = some r ∧ r < STABILITY_MAX_RANGE_AU) ∧
        |inp.slope10.getD 0| < STABILITY_MAX_SLOPE) ∧
    ((tick s inp).state = Phase.COOL →
      (tick s inp).ramp = COOL_RAMP ∧ (tick s inp).temp = START_TEMP) ∧
    ((tick s inp).state = Phase.HOLD →
      (tick s inp).ramp = 0 ∧ (tick s inp).temp = MAX_TEMP) := by
  rcases hr : inp.rng10 with _ | r
  · have ht : tick s inp =
        { s with ramp := 0, temp := MAX_TEMP, notes := "" } := by
      simp only [tick, h, hr]
    rw [ht]
    refine ⟨?_, ?_, fun _ => ⟨rfl, rfl⟩⟩
    · simp only [show ({ s with ramp := 0, temp := MAX_TEMP, notes := "" } : CState).state
        = s.state from rfl, h]
      simp [hr]
    · intro hc
      rw [show ({ s with ramp := 0, temp := MAX_TEMP, notes := "" } : CState).state
        = s.state from rfl, h] at hc
      simp at hc
  · by_cases hc : r < STABILITY_MAX_RANGE_AU ∧ |inp.slope10.getD 0| < STABILITY_MAX_SLOPE
    · have ht : tick s inp =
          { s with state := Phase.COOL, ramp := COOL_RAMP,
                   temp := START_TEMP, notes := "Stable → COOL" } := by
        simp only [tick, h, hr]
        rw [if_pos hc]
      rw [ht]
      refine ⟨?_, fun _ => ⟨rfl, rfl⟩, ?_⟩
      · simp only [true_iff]
        exact ⟨⟨r, rfl, hc.1⟩, hc.2⟩
      · intro hh; exact absurd hh (by simp)
    · have ht : tick s inp =
          { s with ramp := 0, temp := MAX_TEMP, notes := "" } := by
        simp only [tick, h, hr]
        rw [if_neg hc]
      rw [ht]
      refine ⟨?_, ?_, fun _ => ⟨rfl, rfl⟩⟩
      · constructor
        · intro hh
          rw [show ({ s with ramp := 0, temp := MAX_TEMP, notes := "" } : CState).state
            = s.state from rfl, h] at hh
          simp at hh
        · rintro ⟨⟨r2, hr2, hlt⟩, hslope⟩
          injection hr2 with hr2
          subst hr2
          exact absurd ⟨hlt, hslope⟩ hc
      · intro hh
        rw [show ({ s with ramp := 0, temp := MAX_TEMP, notes := "" } : CState).state
          = s.state from rfl, h] at hh
        simp at hh

/-- C5 (witness): a range of `0.04 AU` with slope `0.003 AU/min` transitions
to COOL; a range of `0.06 AU` does not, though its slope qualifies. -/
theorem hold_stability_gate_witness :
    (tick holdState iGateIn).state = Phase.COOL ∧
    ¬ (tick holdState iGateOut).state = Phase.COOL := by
  constructor
  · exact (hold_stability_gate holdState iGateIn rfl).1.mpr
      ⟨⟨4 / 100, rfl, by norm_num [STABILITY_MAX_RANGE_AU]⟩,
       by rw [show iGateIn.slope10.getD 0 = 3 / 1000 from rfl, abs_lt]
          constructor <;> norm_num [STABILITY_MAX_SLOPE]⟩
  · intro hh
    obtain ⟨⟨r, hr, hlt⟩, _⟩ := (hold_stability_gate holdState iGateOut rfl).1.mp hh
    rw [show iGateOut.rng10 = some (6 / 100) from rfl] at hr
    injection hr with hr
    rw [← hr] at hlt
    norm_num [STABILITY_MAX_RANGE_AU] at hlt

/-- C6: every COOL tick finds the running target already at `START_TEMP`
(the HOLD → COOL transition set it there and line 226 re-pins it), so the
reach-or-cross test of line 227 fires at once: the tick snaps the target to
exactly `START_TEMP`, zeroes the ramp and transitions to DONE; hence any
run continuing from a COOL state ends with `temp_target = START_TEMP`. -/
theorem cool_reaches_done (s : CState) (inp : TickInput)
    (h : s.state = Phase.COOL) :
    (tick s inp).state = Phase.DONE ∧ (tick s inp).temp = START_TEMP ∧
    (tick s inp).ramp = 0 ∧
    (∀ rest : List TickInput,
      (run s (inp :: rest)).state = Phase.DONE ∧
      (run s (inp :: rest)).temp = START_TEMP) := by
  have ht : tick s inp =
      { s with state := Phase.DONE, temp := START_TEMP, ramp := 0,
               notes := "Reached 20 °C → done." } := by
    simp only [tick, h]
    rw [if_pos le_rfl]
  refine ⟨by rw [ht], by rw [ht], by rw [ht], ?_⟩
  intro rest
  have hne : s.state ≠ Phase.DONE := by rw [h]; simp
  have hr : run s (inp :: rest) = tick s inp := by
    cases rest with
    | nil => simp [run, hne, ht]
    | cons b t => simp [run, hne, ht]
  rw [hr, ht]
  exact ⟨rfl, rfl⟩

/-- C6 (witness): the COOL behaviour evaluated at a concrete COOL state. -/
theorem cool_reaches_done_witness :
    (tick coolState iZero).state = Phase.DONE ∧
    (tick coolState iZero).temp = START_TEMP ∧
    (tick coolState iZero).ramp = 0 :=
  have h := cool_reaches_done coolState iZero rfl
  ⟨h.1, h.2.1, h.2.2.1⟩

/-- C7: every LINEAR tick adds `FAST_RAMP * dt_min` to the target; the
transition to NONLINEAR fires exactly when the measured slope is at least
`S_REF`, and then the ramp is reset to 0, the target keeps the incremented
value (line 166 subtracts `2*0*dt`, a no-op) and a non-empty note is
emitted; otherwise the ramp stays `FAST_RAMP` and the note is empty. -/
theorem linear_phase_tick (s : CState) (inp : TickInput)
    (h : s.state = Phase.LINEAR) :
    (tick s inp).temp = s.temp + FAST_RAMP * dt_min ∧
    (inp.slope30.getD 0 ≥ S_REF →
      (tick s inp).state = Phase.NONLINEAR ∧ (tick s inp).ramp = 0 ∧
      (tick s inp).notes ≠ "") ∧
    (¬ inp.slope30.getD 0 ≥ S_REF →
      (tick s inp).state = Phase.LINEAR ∧ (tick s inp).ramp = FAST_RAMP ∧
      (tick s inp).notes = "") := by
  simp only [tick, h]
  split_ifs with hc
  · refine ⟨by rw [dt_min]; ring, fun _ => ⟨rfl, rfl, by simp⟩, fun hn => absurd hc hn⟩
  · exact ⟨by rw [dt_min], fun hy => absurd hy hc, fun _ => ⟨rfl, rfl, rfl⟩⟩

/-- C7 (witness): a tick whose slope equals `S_REF` transitions on the spot
with ramp reset and a non-empty note, with the target keeping its
incremented value. -/
theorem linear_phase_tick_witness :
    (tick initState iSref).temp = initState.temp + FAST_RAMP * dt_min ∧
    (tick initState iSref).state = Phase.NONLINEAR ∧
    (tick initState iSref).ramp = 0 ∧ (tick initState iSref).notes ≠ "" :=
  have h := linear_phase_tick initState iSref rfl
  ⟨h.1, h.2.1 (le_refl S_REF)⟩

/-- C8: from the initial state, the source controller with its lazily
initialized PID locals (lines 172-174) is behaviourally identical to the
explicit-reset controller of the spec, whose accumulators are set to 0 exactly
once at the `LINEAR → NONLINEAR` transition and thereafter only updated by
the PID step of each NONLINEAR tick: every run of the two controllers ends
in the same state, field for field. -/
theorem pid_reset_refinement :
    ∀ is : List TickInput, projE (run initState is) = runE (projE initState) is :=
  fun is => run_sim is initState (fun _ => rfl)

/-- C8 (witness): the refinement evaluated on a concrete input sequence. -/
theorem pid_reset_refinement_witness :
    projE (run initState [iSref, iNeg]) = runE (projE initState) [iSref, iNeg] :=
  pid_reset_refinement [iSref, iNeg]

/-- C9: `slope_over_window` returns no value exactly when fewer than 6
samples fall in the window or all in-window timestamps coincide (zero time
variance); a returned value is the ordinary-least-squares slope `num/den`
of value against minutes elapsed since the first in-window sample, which for
a time-sorted history is the earliest sample of the window. -/
theorem slope_defined_iff (history : List (ℚ × ℚ)) (now window_sec : ℚ) :
    (slope_over_window history now window_sec = none ↔
      (windowPts history now window_sec).length < 6 ∨
      ∀ p ∈ windowPts history now window_sec,
        p.1 = (windowPts history now window_sec).headI.1) ∧
    (∀ v, slope_over_window history now window_sec = some v →
      6 ≤ (windowPts history now window_sec).length ∧
      olsDen (windowXs history now window_sec) ≠ 0 ∧
      v = olsNum (windowXs history now window_sec) (windowYs history now window_sec) /
        olsDen (windowXs history now window_sec)) ∧
    (history.Pairwise (fun a b => a.1 ≤ b.1) →
      ∀ p ∈ windowPts history now window_sec,
        (windowPts history now window_sec).headI.1 ≤ p.1) := by
  refine ⟨?_, ?_, ?_⟩
  · by_cases hlen : (windowPts history now window_sec).length < 6
    · rw [slope_over_window, if_pos hlen]
      simp [hlen]
    · have hne : windowPts history now window_sec ≠ [] := by
        intro hnil
        rw [hnil] at hlen
        simp at hlen
      rw [slope_over_window, if_neg hlen]
      by_cases hden : olsDen (windowXs history now window_sec) = 0
      · rw [if_neg (not_not_intro hden)]
        simp only [true_iff]
        exact Or.inr ((olsDen_windowXs_zero_iff history now window_sec hne).mp hden)
      · rw [if_pos hden]
        simp only [reduceCtorEq, false_iff]
        push_neg
        refine ⟨le_of_not_lt hlen, ?_⟩
        by_contra hno
        push_neg at hno
        exact hden ((olsDen_windowXs_zero_iff history now window_sec hne).mpr hno)
  · intro v hv
    rw [slope_over_window] at hv
    by_cases hlen : (windowPts history now window_sec).length < 6
    · rw [if_pos hlen] at hv
      exact absurd hv (by simp)
    · rw [if_neg hlen] at hv
      by_cases hden : olsDen (windowXs history now window_sec) = 0
      · rw [if_neg (not_not_intro hden)] at hv
        exact absurd hv (by simp)
      · rw [if_pos hden] at hv
        injection hv with hv
        exact ⟨le_of_not_lt hlen, hden, hv.symm⟩
  · intro hsort p hp
    have hps : (windowPts history now window_sec).Pairwise (fun a b => a.1 ≤ b.1) :=
      List.Pairwise.filter _ hsort
    rcases hcons : windowPts history now window_sec with _ | ⟨a, t⟩
    · rw [hcons] at hp
      simp at hp
    · rw [hcons] at hp hps
      simp only [List.headI]
      rcases List.mem_cons.mp hp with rfl | hpt
      · exact le_rfl
      · exact (List.pairwise_cons.mp hps).1 p hpt

/-- C9 (witness): a one-sample window has no slope, and a six-sample window
with distinct timestamps has one. -/
theorem slope_defined_iff_witness :
    slope_over_window demoHist1 0 30 = none ∧
    ¬ slope_over_window demoHist6 5 30 = none := by
  constructor
  · exact (slope_defined_iff demoHist1 0 30).1.mpr
      (Or.inl (by norm_num [windowPts, demoHist1, List.filter]))
  · intro hn
    rcases (slope_defined_iff demoHist6 5 30).1.mp hn with hl | hall
    · norm_num [windowPts, demoHist6, List.filter] at hl
    · have h1 : ((1 : ℚ), (1 : ℚ)) ∈ windowPts demoHist6 5 30 := by
        norm_num [windowPts, demoHist6, List.filter]
      have := hall _ h1
      norm_num [windowPts, demoHist6, List.filter] at this

/-- C10: on a HOLD tick whose 10-minute slope statistic is undefined, the
code substitutes `0.0` (line 217), which satisfies the slope half of the
stability gate, so the transition to COOL fires exactly when the range is
defined and within the gate. -/
theorem hold_gate_undefined_slope (s : CState) (inp : TickInput)
    (h : s.state = Phase.HOLD) (hs : inp.slope10 = none) :
    inp.slope10.getD 0 = 0 ∧
    |inp.slope10.getD 0| < STABILITY_MAX_SLOPE ∧
    ((tick s inp).state = Phase.COOL ↔
      ∃ r, inp.rng10 = some r ∧ r < STABILITY_MAX_RANGE_AU) := by
  have hget : inp.slope10.getD 0 = 0 := by rw [hs]; rfl
  have habs : |inp.slope10.getD 0| < STABILITY_MAX_SLOPE := by
    rw [hget]
    norm_num [STABILITY_MAX_SLOPE]
  refine ⟨hget, habs, ?_⟩
  rcases hr : inp.rng10 with _ | r
  · have ht : tick s inp =
        { s with ramp := 0, temp := MAX_TEMP, notes := "" } := by
      simp only [tick, h, hr]
    rw [ht]
    constructor
    · intro hh
      rw [show ({ s with ramp := 0, temp := MAX_TEMP, notes := "" } : CState).state
        = s.state from rfl, h] at hh
      simp at hh
    · rintro ⟨r, hr2, _⟩
      exact Option.noConfusion hr2
  · by_cases hlt : r < STABILITY_MAX_RANGE_AU
    · have ht : tick s inp =
          { s with state := Phase.COOL, ramp := COOL_RAMP,
                   temp := START_TEMP, notes := "Stable → COOL" } := by
        simp only [tick, h, hr]
        rw [if_pos ⟨hlt, habs⟩]
      rw [ht]
      exact ⟨fun _ => ⟨r, rfl, hlt⟩, fun _ => rfl⟩
    · have ht : tick s inp =
          { s with ramp := 0, temp := MAX_TEMP, notes := "" } := by
        simp only [tick, h, hr]
        rw [if_neg (fun hand => hlt hand.1)]
      rw [ht]
      constructor
      · intro hh
        rw [show ({ s with ramp := 0, temp := MAX_TEMP, notes := "" } : CState).state
          = s.state from rfl, h] at hh
        simp at hh
      · rintro ⟨r2, hr2, hlt2⟩
        injection hr2 with hr2
        subst hr2
        exact absurd hlt2 hlt

/-- C10 (witness): an in-gate range with an undefined slope transitions to
COOL. -/
theorem hold_gate_undefined_slope_witness :
    (tick holdState iRngOnly).state = Phase.COOL :=
  (hold_gate_undefined_slope holdState iRngOnly rfl rfl).2.2.mpr
    ⟨4 / 100, rfl, by norm_num [STABILITY_MAX_RANGE_AU]⟩

end PIDControl
